import Mathlib

/-!
Verification of the threaded remote-discussion mirror (Bluesky comment
section) of this repository.  The component lives in two near-identical
TypeScript files; we embed both shallowly.  The first file is the one with
the depth-limited renderer and per-node links; the second lacks both.

Conventions of the embedding:
* JavaScript arrays of posts are embedded as the mutually inductive list
  type `ReplyList` (so that all recursions are structural and compute);
  the optional `replies?` field, which every use site treats exactly like
  an empty array (its only uses are truthiness checks and an
  empty-array default parameter), is embedded as `ReplyList.nil`.
* JavaScript numbers in the payload counts are embedded as `Option Int`
  (`none` = field absent from the payload); the idiom `x || 0` is
  `jsOrZero`, and `x > 0` on a possibly-absent number is `jsGtZero`.
* The renderers build an algebraic render tree (`Rendered` / `Rendered8`)
  whose constructors correspond one-to-one to the template literals of the
  source; `toHtml7` / `toHtml8` print that tree using the literal markup
  of the corresponding template (whitespace between tags and the emoji
  glyphs inside the counter spans are elided, all tags, attributes and
  interpolations are kept).  Locale-dependent date formatting
  (`new Date(x).toLocaleDateString()`) is passed in as an explicit
  function argument `localeDate`.
-/

/-- Author object of the payload (`post.author`). -/
structure Author where
  avatar : String
  displayName : String
  handle : String

/-- Record object of the payload (`post.record`). -/
structure PostRecord where
  text : String

/-- The `post` object of one payload node. Counts are `Option Int`:
`none` embeds a field absent from the source payload. -/
structure PostData where
  uri : String
  author : Author
  record : PostRecord
  indexedAt : String
  likeCount : Option Int
  repostCount : Option Int
  replyCount : Option Int

mutual
/-- One node of the fetched reply tree (`BlueskyPost` of the source). -/
inductive BlueskyPost where
  | mk (post : PostData) (replies : ReplyList)

/-- A JavaScript array of `BlueskyPost`, as a mutually inductive list so
that recursion over the tree is structural. -/
inductive ReplyList where
  | nil
  | cons (head : BlueskyPost) (tail : ReplyList)
end

/-- Projection `p.post`. -/
def BlueskyPost.post : BlueskyPost → PostData
  | .mk p _ => p

/-- Projection `p.replies` (absent embedded as `.nil`). -/
def BlueskyPost.replies : BlueskyPost → ReplyList
  | .mk _ rs => rs

/-- The texts of a list of posts, in order. -/
def ReplyList.texts : ReplyList → List String
  | .nil => []
  | .cons p rest => p.post.record.text :: rest.texts

/-- The JavaScript idiom `x || 0` on a possibly-absent count
(`undefined || 0` is `0`, `0 || 0` is `0`, otherwise the value). -/
def jsOrZero (c : Option Int) : Int := c.getD 0

/-- The JavaScript comparison `x > 0` on a possibly-absent count
(`undefined > 0` is `false`). -/
def jsGtZero : Option Int → Bool
  | none => false
  | some n => decide (0 < n)

/-- JavaScript `String.split` with a one-character separator, on the
character list of the string: splitting the empty string yields `[[]]`,
a separator character ends the current (possibly empty) piece. -/
def splitChars (sep : Char) : List Char → List (List Char)
  | [] => [[]]
  | c :: rest =>
    let r := splitChars sep rest
    if c = sep then [] :: r
    else
      match r with
      | [] => [[c]]
      | w :: ws => (c :: w) :: ws

/-- JavaScript `s.split(sep)` for a one-character `sep`. -/
def jsSplit (s : String) (sep : Char) : List String :=
  (splitChars sep s.data).map (fun cs => ⟨cs⟩)

/-- Embeds `getBlueskyPostUrl` (first file, lines 20-23):
`uri.split('/').pop()` is the last element of the split (`split` always
yields a nonempty array, so `pop` never yields `undefined`; the
`getLastD ""` default is unreachable). -/
def getBlueskyPostUrl (uri handle : String) : String :=
  let postId := (jsSplit uri '/').getLastD ""
  "https://bsky.app/profile/" ++ handle ++ "/post/" ++ postId

mutual
/-- Algebraic render tree of the first file's renderer.  Each constructor
is one template literal of the source: `comment` is the
`<div class="...">` block of one post (css class, post url, author
avatar/displayName/handle, body text, `indexedAt`, the three displayed
counts, and the trailing replies markup); `repliesBlock` is the
`<div class="replies">` wrapper around rendered children;
`continueThread` is the boundary-depth continue-thread link;
`viewMore` is the `View N more replies` link of a leaf with a nonzero
server-reported count; `empty` is the empty string. -/
inductive Rendered where
  | comment (cssClass url avatar displayName handle text indexedAt : String)
      (replyCount repostCount likeCount : Int) (tail : Rendered)
  | repliesBlock (items : RenderedList)
  | continueThread (url : String)
  | viewMore (url : String) (count : Int)
  | empty

/-- The joined array of rendered sibling markup. -/
inductive RenderedList where
  | nil
  | cons (head : Rendered) (tail : RenderedList)
end

mutual
/-- Embeds the inner closure `renderReplies(replies, depth, parentUrl)`
of the first file's `renderComment` (lines 113-168): empty array renders
nothing; at `depth >= maxDepth` it renders the continue-thread link for
`parentUrl` instead of descending; otherwise it maps the rendering of
each reply. -/
def renderReplies7 (maxDepth : Nat) (replies : ReplyList) (depth : Nat)
    (parentUrl : String) : Rendered :=
  match replies with
  | .nil => .empty
  | .cons r rest =>
    if maxDepth ≤ depth then .continueThread parentUrl
    else .repliesBlock
      (.cons (renderReplyItem7 maxDepth r depth) (renderReplyList7 maxDepth rest depth))

/-- The `replies.map(reply => ...)` part of `renderReplies`. -/
def renderReplyList7 (maxDepth : Nat) (replies : ReplyList) (depth : Nat) : RenderedList :=
  match replies with
  | .nil => .nil
  | .cons r rest =>
    .cons (renderReplyItem7 maxDepth r depth) (renderReplyList7 maxDepth rest depth)

/-- The markup of one reply inside `renderReplies` (first file, lines
133-164): a `comment reply` block, and as tail either the recursive
`renderReplies(reply.replies, depth + 1, replyUrl)` when the fetched
children are nonempty, or the `View N more replies` link when
`reply.post.replyCount > 0`, or nothing. -/
def renderReplyItem7 (maxDepth : Nat) (reply : BlueskyPost) (depth : Nat) : Rendered :=
  match reply with
  | .mk post replies =>
    let replyUrl := getBlueskyPostUrl post.uri post.author.handle
    .comment "comment reply" replyUrl post.author.avatar post.author.displayName
      post.author.handle post.record.text post.indexedAt
      (jsOrZero post.replyCount) (jsOrZero post.repostCount) (jsOrZero post.likeCount)
      (match replies with
       | .nil =>
         if jsGtZero post.replyCount then
           .viewMore replyUrl (jsOrZero post.replyCount)
         else .empty
       | .cons _ _ => renderReplies7 maxDepth replies (depth + 1) replyUrl)
end

/-- Embeds `renderComment(comment, maxDepth = 3)` of the first file
(lines 109-202): the top-level `comment` block, with the same tail
alternatives as a reply, starting the reply recursion at depth 1. -/
def renderComment7 (comment : BlueskyPost) (maxDepth : Nat) : Rendered :=
  match comment with
  | .mk post replies =>
    let postUrl := getBlueskyPostUrl post.uri post.author.handle
    .comment "comment" postUrl post.author.avatar post.author.displayName
      post.author.handle post.record.text post.indexedAt
      (jsOrZero post.replyCount) (jsOrZero post.repostCount) (jsOrZero post.likeCount)
      (match replies with
       | .nil =>
         if jsGtZero post.replyCount then
           .viewMore postUrl (jsOrZero post.replyCount)
         else .empty
       | .cons _ _ => renderReplies7 maxDepth replies 1 postUrl)

/-- Result of `renderComments`: either the `no-comments` placeholder
paragraph or the joined list of rendered top-level comments. -/
inductive RenderOutput where
  | noComments
  | comments (items : RenderedList)

/-- The `comments.map(comment => this.renderComment(comment))` part of
the first file's `renderComments`; `renderComment` is called with its
default `maxDepth = 3`. -/
def renderTopList7 : ReplyList → RenderedList
  | .nil => .nil
  | .cons c rest => .cons (renderComment7 c 3) (renderTopList7 rest)

/-- Embeds `renderComments(comments)` of the first file (lines 100-107). -/
def renderComments7 (comments : ReplyList) : RenderOutput :=
  match comments with
  | .nil => .noComments
  | .cons _ _ => .comments (renderTopList7 comments)

mutual
/-- Algebraic render tree of the second file's renderer.  Its `comment`
blocks carry no post url (the second file builds no links at all), and
there is no continuation-link constructor (it has no depth limit). -/
inductive Rendered8 where
  | comment (cssClass avatar displayName handle text indexedAt : String)
      (replyCount repostCount likeCount : Int) (tail : Rendered8)
  | repliesBlock (items : RenderedList8)
  | empty

/-- The joined array of rendered sibling markup, second file. -/
inductive RenderedList8 where
  | nil
  | cons (head : Rendered8) (tail : RenderedList8)
end

mutual
/-- Embeds the inner closure `renderReplies(replies)` of the second
file's `renderComment` (lines 106-139): empty array renders nothing,
otherwise a replies block mapping each reply, with no depth bound. -/
def renderReplies8 (replies : ReplyList) : Rendered8 :=
  match replies with
  | .nil => .empty
  | .cons r rest => .repliesBlock (.cons (renderItem8 r) (renderList8 rest))

/-- The `replies.map(reply => ...)` part of the second file's
`renderReplies`. -/
def renderList8 : ReplyList → RenderedList8
  | .nil => .nil
  | .cons r rest => .cons (renderItem8 r) (renderList8 rest)

/-- The markup of one reply in the second file (lines 112-135): a
`comment reply` block whose tail is always the recursive
`renderReplies(reply.replies)`. -/
def renderItem8 (reply : BlueskyPost) : Rendered8 :=
  match reply with
  | .mk post replies =>
    .comment "comment reply" post.author.avatar post.author.displayName
      post.author.handle post.record.text post.indexedAt
      (jsOrZero post.replyCount) (jsOrZero post.repostCount) (jsOrZero post.likeCount)
      (renderReplies8 replies)
end

/-- Embeds `renderComment(comment)` of the second file (lines 103-165). -/
def renderComment8 (comment : BlueskyPost) : Rendered8 :=
  match comment with
  | .mk post replies =>
    .comment "comment" post.author.avatar post.author.displayName
      post.author.handle post.record.text post.indexedAt
      (jsOrZero post.replyCount) (jsOrZero post.repostCount) (jsOrZero post.likeCount)
      (renderReplies8 replies)

/-- Result of the second file's `renderComments`. -/
inductive RenderOutput8 where
  | noComments
  | comments (items : RenderedList8)

/-- The `comments.map(...)` part of the second file's `renderComments`. -/
def renderTopList8 : ReplyList → RenderedList8
  | .nil => .nil
  | .cons c rest => .cons (renderComment8 c) (renderTopList8 rest)

/-- Embeds `renderComments(comments)` of the second file (lines 94-101). -/
def renderComments8 (comments : ReplyList) : RenderOutput8 :=
  match comments with
  | .nil => .noComments
  | .cons _ _ => .comments (renderTopList8 comments)

mutual
/-- Deepest nesting of `comment` blocks inside a render tree: the depth
of the deepest rendered post, counted from the level of the tree's own
outermost `comment` block. -/
def commentNesting : Rendered → Nat
  | .comment _ _ _ _ _ _ _ _ _ _ tail => 1 + commentNesting tail
  | .repliesBlock items => commentNestingList items
  | .continueThread _ => 0
  | .viewMore _ _ => 0
  | .empty => 0

/-- Deepest `comment` nesting over a rendered list. -/
def commentNestingList : RenderedList → Nat
  | .nil => 0
  | .cons r rest => max (commentNesting r) (commentNestingList rest)
end

mutual
/-- Number of remote-continuation links (`continue-thread` anchors, both
the boundary `Continue this thread` form and the `View N more replies`
form) in a render tree. -/
def contLinks : Rendered → Nat
  | .comment _ _ _ _ _ _ _ _ _ _ tail => contLinks tail
  | .repliesBlock items => contLinksList items
  | .continueThread _ => 1
  | .viewMore _ _ => 1
  | .empty => 0

/-- Number of remote-continuation links over a rendered list. -/
def contLinksList : RenderedList → Nat
  | .nil => 0
  | .cons r rest => contLinks r + contLinksList rest
end

/-- The trailing replies markup of a rendered `comment` block. -/
def Rendered.tailOf : Rendered → Option Rendered
  | .comment _ _ _ _ _ _ _ _ _ _ tail => some tail
  | _ => none

/-- The three displayed counts (reply, repost, like) of a rendered
`comment` block. -/
def Rendered.countsOf : Rendered → Option (Int × Int × Int)
  | .comment _ _ _ _ _ _ _ rc rp lc _ => some (rc, rp, lc)
  | _ => none

/-- The body text of a rendered `comment` block. -/
def Rendered.textOf : Rendered → Option String
  | .comment _ _ _ _ _ text _ _ _ _ _ => some text
  | _ => none

/-- The items of a `repliesBlock`. -/
def Rendered.blockItemsOf : Rendered → RenderedList
  | .repliesBlock items => items
  | _ => .nil

/-- The top-level rendered items of a `renderComments` result. -/
def RenderOutput.topItems : RenderOutput → RenderedList
  | .noComments => .nil
  | .comments items => items

/-- Body texts of a rendered list, in order (`none` for a non-comment
item). -/
def itemsTexts : RenderedList → List (Option String)
  | .nil => []
  | .cons r rest => r.textOf :: itemsTexts rest

/-- The per-post content a rendered `comment` block displays, free of
markup and links: used to compare the two near-identical renderers. -/
structure NodeContent where
  avatar : String
  displayName : String
  handle : String
  text : String
  indexedAt : String
  replyCount : Int
  repostCount : Int
  likeCount : Int

mutual
/-- Displayed post contents of a first-file render tree, in render
order; continuation links and the markup-only constructors contribute
nothing. -/
def content7 : Rendered → List NodeContent
  | .comment _ _ av dn h tx ia rc rp lc tail =>
    { avatar := av, displayName := dn, handle := h, text := tx, indexedAt := ia,
      replyCount := rc, repostCount := rp, likeCount := lc } :: content7 tail
  | .repliesBlock items => content7List items
  | .continueThread _ => []
  | .viewMore _ _ => []
  | .empty => []

/-- Displayed post contents over a first-file rendered list. -/
def content7List : RenderedList → List NodeContent
  | .nil => []
  | .cons r rest => content7 r ++ content7List rest
end

mutual
/-- Displayed post contents of a second-file render tree, in render
order. -/
def content8 : Rendered8 → List NodeContent
  | .comment _ av dn h tx ia rc rp lc tail =>
    { avatar := av, displayName := dn, handle := h, text := tx, indexedAt := ia,
      replyCount := rc, repostCount := rp, likeCount := lc } :: content8 tail
  | .repliesBlock items => content8List items
  | .empty => []

/-- Displayed post contents over a second-file rendered list. -/
def content8List : RenderedList8 → List NodeContent
  | .nil => []
  | .cons r rest => content8 r ++ content8List rest
end

/-- Displayed post contents of a `renderComments` result, first file. -/
def outContent7 : RenderOutput → List NodeContent
  | .noComments => []
  | .comments items => content7List items

/-- Displayed post contents of a `renderComments` result, second file. -/
def outContent8 : RenderOutput8 → List NodeContent
  | .noComments => []
  | .comments items => content8List items

mutual
/-- Height of a fetched post tree: a leaf has height 1. -/
def height : BlueskyPost → Nat
  | .mk _ replies => 1 + heightList replies

/-- Greatest height over a reply list (0 for the empty list). -/
def heightList : ReplyList → Nat
  | .nil => 0
  | .cons r rest => max (height r) (heightList rest)
end

mutual
/-- Prints a first-file render tree with the literal markup of the
first file's template strings (whitespace between tags and the emoji
glyphs in the counter spans elided; every tag, attribute and
interpolation kept).  `localeDate` is the locale-dependent
`new Date(x).toLocaleDateString()`. -/
def toHtml7 (localeDate : String → String) : Rendered → String
  | .comment cssClass url avatar displayName handle text indexedAt rc rp lc tail =>
    "<div class=\"" ++ cssClass ++ "\">" ++
    "<a href=\"" ++ url ++ "\" target=\"_blank\" rel=\"noopener noreferrer\" class=\"comment-link\">" ++
    "<div class=\"comment-header\">" ++
    "<img src=\"" ++ avatar ++ "\" alt=\"" ++ displayName ++ "\x27s avatar\" class=\"avatar\" style=\"width: 32px; height: 32px; border-radius: 50%; object-fit: cover;\" />" ++
    "<div class=\"author-info\">" ++
    "<span class=\"author-name\">" ++ displayName ++ "</span>" ++
    "<span class=\"author-handle\">@" ++ handle ++ "</span>" ++
    "</div></div>" ++
    "<div class=\"comment-content\">" ++ text ++ "</div>" ++
    "</a>" ++
    "<div class=\"comment-footer\">" ++
    "<div class=\"interaction-counts\">" ++
    "<a href=\"" ++ url ++ "\" target=\"_blank\" rel=\"noopener noreferrer\" title=\"Reply on Bluesky\"><span>" ++ toString rc ++ "</span></a>" ++
    "<a href=\"" ++ url ++ "\" target=\"_blank\" rel=\"noopener noreferrer\" title=\"Repost on Bluesky\"><span>" ++ toString rp ++ "</span></a>" ++
    "<a href=\"" ++ url ++ "\" target=\"_blank\" rel=\"noopener noreferrer\" title=\"Like on Bluesky\"><span>" ++ toString lc ++ "</span></a>" ++
    "</div>" ++
    "<time datetime=\"" ++ indexedAt ++ "\">" ++ localeDate indexedAt ++ "</time>" ++
    "</div>" ++
    toHtml7 localeDate tail ++
    "</div>"
  | .repliesBlock items =>
    "<div class=\"replies\">" ++ toHtmlList7 localeDate items ++ "</div>"
  | .continueThread url =>
    "<div class=\"replies\"><a href=\"" ++ url ++ "\" target=\"_blank\" rel=\"noopener noreferrer\" class=\"continue-thread\">Continue this thread on Bluesky</a></div>"
  | .viewMore url count =>
    "<div class=\"replies\"><a href=\"" ++ url ++ "\" target=\"_blank\" rel=\"noopener noreferrer\" class=\"continue-thread\">View " ++ toString count ++ " more " ++ (if count == 1 then "reply" else "replies") ++ " on Bluesky</a></div>"
  | .empty => ""

/-- Markup of a first-file rendered list, `.join("")` of the items. -/
def toHtmlList7 (localeDate : String → String) : RenderedList → String
  | .nil => ""
  | .cons r rest => toHtml7 localeDate r ++ toHtmlList7 localeDate rest
end

mutual
/-- Prints a second-file render tree with the literal markup of the
second file's template strings (same elisions as `toHtml7`): no anchors
anywhere, counters as plain spans. -/
def toHtml8 (localeDate : String → String) : Rendered8 → String
  | .comment cssClass avatar displayName handle text indexedAt rc rp lc tail =>
    "<div class=\"" ++ cssClass ++ "\">" ++
    "<div class=\"comment-header\">" ++
    "<img src=\"" ++ avatar ++ "\" alt=\"" ++ displayName ++ "\x27s avatar\" class=\"avatar\" style=\"width: 32px; height: 32px; border-radius: 50%; object-fit: cover;\" />" ++
    "<div class=\"author-info\">" ++
    "<span class=\"author-name\">" ++ displayName ++ "</span>" ++
    "<span class=\"author-handle\">@" ++ handle ++ "</span>" ++
    "</div></div>" ++
    "<div class=\"comment-content\">" ++ text ++ "</div>" ++
    "<div class=\"comment-footer\">" ++
    "<div class=\"interaction-counts\">" ++
    "<span>" ++ toString rc ++ "</span>" ++
    "<span>" ++ toString rp ++ "</span>" ++
    "<span>" ++ toString lc ++ "</span>" ++
    "</div>" ++
    "<time datetime=\"" ++ indexedAt ++ "\">" ++ localeDate indexedAt ++ "</time>" ++
    "</div>" ++
    toHtml8 localeDate tail ++
    "</div>"
  | .repliesBlock items =>
    "<div class=\"replies\">" ++ toHtmlList8 localeDate items ++ "</div>"
  | .empty => ""

/-- Markup of a second-file rendered list. -/
def toHtmlList8 (localeDate : String → String) : RenderedList8 → String
  | .nil => ""
  | .cons r rest => toHtml8 localeDate r ++ toHtmlList8 localeDate rest
end

/-- The literal `no-comments` placeholder markup (identical in both
files). -/
def noCommentsHtml : String :=
  "<p class=\"no-comments\">No comments yet. Be the first to comment!</p>"

/-- Markup written to the comments list by the first file's
`renderComments`. -/
def outputHtml7 (localeDate : String → String) : RenderOutput → String
  | .noComments => noCommentsHtml
  | .comments items => toHtmlList7 localeDate items

/-- Markup written to the comments list by the second file's
`renderComments`. -/
def outputHtml8 (localeDate : String → String) : RenderOutput8 → String
  | .noComments => noCommentsHtml
  | .comments items => toHtmlList8 localeDate items

/-- The DOM state a `CommentSection` mutates during one fetch cycle:
the three `style.display` values, the error text, and the comments
list's rendered content (`none` before any successful cycle). -/
structure ViewState where
  loaderDisplay : String
  errorDisplay : String
  listDisplay : String
  errorText : String
  listContent : Option RenderOutput

/-- Outcome of the awaited network interaction of one cycle:
a 2xx response with parsed body (carrying `data.thread?.replies`,
`none` when absent), a non-2xx response (which the source turns into a
thrown `HTTP error! status: N`), or any other thrown transport or
parse error. -/
inductive FetchOutcome where
  | ok (replies : Option ReplyList)
  | httpError (status : Nat)
  | thrown (message : String)

/-- The JavaScript idiom `data.thread?.replies || []`. -/
def jsOrNil (r : Option ReplyList) : ReplyList := r.getD .nil

/-- Embeds one run of `fetchComments` (first file, lines 64-98) as a
state transition: show loader and hide error and list (lines 65-67);
on success render the comments into the list, hide the loader and show
the list (lines 83-87); on a non-2xx status or a thrown error hide the
loader, show the error slot and write the failure message into it
(lines 88-96) — the list content itself is not touched on failure. -/
def fetchComments (s : ViewState) (r : FetchOutcome) : ViewState :=
  let s1 : ViewState :=
    { s with loaderDisplay := "block", errorDisplay := "none", listDisplay := "none" }
  match r with
  | .ok replies =>
    { s1 with listContent := some (renderComments7 (jsOrNil replies)),
              loaderDisplay := "none", listDisplay := "block" }
  | .httpError status =>
    let errorMessage := "HTTP error! status: " ++ toString status
    { s1 with loaderDisplay := "none", errorDisplay := "block",
              errorText := "Error loading comments: " ++ errorMessage }
  | .thrown msg =>
    { s1 with loaderDisplay := "none", errorDisplay := "block",
              errorText := "Error loading comments: " ++ msg }

/-- The human-readable cause a failing fetch outcome carries: the
`HTTP error! status: N` message the source throws for a non-2xx
response, or the thrown transport or parse error's own message;
`none` for a success. -/
def failureMessage : FetchOutcome → Option String
  | .ok _ => none
  | .httpError status => some ("HTTP error! status: " ++ toString status)
  | .thrown msg => some msg

/-- One eligible `comments-section` container as the constructor sees
it: its `data-bluesky-uri` value and which of the four required
descendant elements its `querySelector` calls find. -/
structure Container where
  blueskyUri : Option String
  hasLoader : Bool
  hasErrorDiv : Bool
  hasCommentsList : Bool
  hasRefreshButton : Bool

/-- A successfully constructed comment-section view. -/
structure SectionView where
  uri : String

/-- Embeds the `CommentSection` constructor (first file, lines 32-54):
throws `Bluesky URI is required` when the uri is absent, throws
`Required DOM elements not found` when any of loader, error slot, list
slot or refresh control is missing, otherwise the view is constructed. -/
def constructSection (c : Container) : Except String SectionView :=
  match c.blueskyUri with
  | none => .error "Bluesky URI is required"
  | some uri =>
    if c.hasLoader && c.hasErrorDiv && c.hasCommentsList && c.hasRefreshButton then
      .ok { uri := uri }
    else
      .error "Required DOM elements not found"

/-- Whether the constructor succeeds on a container. -/
def sectionOk (c : Container) : Bool :=
  match constructSection c with
  | .ok _ => true
  | .error _ => false

/-- The view a container yields, when construction succeeds. -/
def sectionView (c : Container) : Option SectionView :=
  match constructSection c with
  | .ok v => some v
  | .error _ => none

/-- Embeds `initializeCommentSections` (first file, lines 206-210):
`document.querySelectorAll(...).forEach(container => new
CommentSection(container))`.  `forEach` does not catch: a constructor
throw propagates and aborts the iteration, so the result is the views
constructed before the first failing container, paired with the
uncaught error message if there was one. -/
def initCommentSections (cs : List Container) : List SectionView × Option String :=
  match cs with
  | [] => ([], none)
  | c :: rest =>
    match constructSection c with
    | .error e => ([], some e)
    | .ok v =>
      let r := initCommentSections rest
      (v :: r.1, r.2)

/-- What `initialize` (first file, lines 56-62) sets up on
construction: the manual-refresh click listener, one immediately run
fetch cycle, and a recurring `setInterval` timer of
`5 * 60 * 1000` milliseconds. -/
structure InitSetup where
  refreshClickRegistered : Bool
  immediateCycleRun : Bool
  intervalMs : Nat

/-- Embeds `initialize` (first file, lines 56-62). -/
def initSetup : InitSetup :=
  { refreshClickRegistered := true
    immediateCycleRun := true
    intervalMs := 5 * 60 * 1000 }

/-- Cycle start times (milliseconds since mount) up to and including
time `t`, for the scheduling `initialize` sets up with no manual
triggers: the immediate cycle at 0 and a timer tick every `intervalMs`
milliseconds. -/
def cycleTimesUpTo (intervalMs t : Nat) : List Nat :=
  (List.range (t / intervalMs + 1)).map (fun k => k * intervalMs)

/-- Whether a possibly-absent payload count is non-negative when
present (the payload invariant of the data model: counts arriving from
the API are non-negative integers). -/
def nonnegCount : Option Int → Bool
  | none => true
  | some n => decide (0 ≤ n)

/-- All three counts of a payload node are non-negative when present. -/
def countsNonneg (p : PostData) : Bool :=
  nonnegCount p.replyCount && nonnegCount p.repostCount && nonnegCount p.likeCount

/-- A concrete author, for witnesses and counterexamples. -/
def exAuthor : Author :=
  { avatar := "https://cdn.example/alice.png"
    displayName := "Alice"
    handle := "alice.bsky.social" }

/-- A concrete payload node: a leaf whose `repostCount` is absent from
the payload. -/
def exPostData : PostData :=
  { uri := "at://did:plc:abc123/app.bsky.feed.post/xyz789"
    author := exAuthor
    record := { text := "hello" }
    indexedAt := "2024-01-01T00:00:00.000Z"
    likeCount := some 2
    repostCount := none
    replyCount := some 0 }

/-- A concrete leaf post with no fetched children and zero reply
count. -/
def exPost : BlueskyPost := .mk exPostData .nil

/-- A concrete payload node whose server-reported reply count is 4 even
though no children were fetched. -/
def exPostDataMore : PostData :=
  { uri := "at://did:plc:abc123/app.bsky.feed.post/deep01"
    author := exAuthor
    record := { text := "there is more" }
    indexedAt := "2024-01-02T00:00:00.000Z"
    likeCount := none
    repostCount := some 1
    replyCount := some 4 }

/-- A concrete leaf post with `replyCount = 4` and no fetched
children. -/
def exLeafWithCount : BlueskyPost := .mk exPostDataMore .nil

/-- A concrete top-level reply array with one post. -/
def exReplyList : ReplyList := .cons exPost .nil

/-- A concrete locale date formatter, standing in for the ambient
locale of `toLocaleDateString`. -/
def exLocaleDate : String → String := fun _ => "1/1/2024"

/-- A concrete view state that already shows rendered content from an
earlier successful cycle. -/
def exViewState : ViewState :=
  { loaderDisplay := "none"
    errorDisplay := "none"
    listDisplay := "block"
    errorText := ""
    listContent := some (renderComments7 exReplyList) }

/-- A concrete container missing its loading indicator but otherwise
complete. -/
def exBadContainer : Container :=
  { blueskyUri := some "at://did:plc:abc123/app.bsky.feed.post/xyz789"
    hasLoader := false
    hasErrorDiv := true
    hasCommentsList := true
    hasRefreshButton := true }

/-- A concrete fully complete container. -/
def exGoodContainer : Container :=
  { blueskyUri := some "at://did:plc:def456/app.bsky.feed.post/uvw000"
    hasLoader := true
    hasErrorDiv := true
    hasCommentsList := true
    hasRefreshButton := true }

mutual
/-- Bound used by claim C1: the output of `renderReplies` called at
depth `d` nests rendered posts at most `D - d` deep. -/
theorem commentNesting_renderReplies7_le (D : Nat) (rs : ReplyList) (d : Nat) (url : String) :
    commentNesting (renderReplies7 D rs d url) ≤ D - d := by
  cases rs with
  | nil => simp [renderReplies7, commentNesting]
  | cons r rest =>
    by_cases h : D ≤ d
    · simp [renderReplies7, h, commentNesting]
    · have hd : d < D := Nat.lt_of_not_le h
      have h1 := commentNesting_renderReplyItem7_le D r d hd
      have h2 := commentNesting_renderReplyList7_le D rest d hd
      simp only [renderReplies7, if_neg h, commentNesting, commentNestingList]
      omega

/-- Bound used by claim C1, list form. -/
theorem commentNesting_renderReplyList7_le (D : Nat) (rs : ReplyList) (d : Nat)
    (hd : d < D) :
    commentNestingList (renderReplyList7 D rs d) ≤ D - d := by
  cases rs with
  | nil => simp [renderReplyList7, commentNestingList]
  | cons r rest =>
    have h1 := commentNesting_renderReplyItem7_le D r d hd
    have h2 := commentNesting_renderReplyList7_le D rest d hd
    simp only [renderReplyList7, commentNestingList]
    omega

/-- Bound used by claim C1, single-reply form. -/
theorem commentNesting_renderReplyItem7_le (D : Nat) (r : BlueskyPost) (d : Nat)
    (hd : d < D) :
    commentNesting (renderReplyItem7 D r d) ≤ D - d := by
  cases r with
  | mk post replies =>
    cases replies with
    | nil =>
      by_cases hc : jsGtZero post.replyCount
      · simp only [renderReplyItem7, hc, if_true, commentNesting]
        omega
      · simp only [renderReplyItem7, hc, if_false, commentNesting]
        omega
    | cons r2 rest2 =>
      have h1 := commentNesting_renderReplies7_le D (.cons r2 rest2) (d + 1)
        (getBlueskyPostUrl post.uri post.author.handle)
      simp only [renderReplyItem7, commentNesting]
      omega
end

/-- Claim C1: for every tree and depth limit `D ≥ 1` (reference
`D = 3`, replies of the top-level comment at depth 1 rendered while
`1 < D`), the first file's renderer nests rendered posts at most `D`
deep; a node rendered at the boundary depth `D` (render parameter
`D - 1`) renders no nested posts, and its trailing markup is exactly
one remote-continuation link built from that node's own `uri` and
author handle — the `Continue this thread` link when the node has
fetched children, the `View N more replies` link when it has none but
`replyCount > 0` — and carries no such link when it is a leaf with
`replyCount` not positive. -/
theorem renderComment7_depth_bound_and_boundary_links (D : Nat) (hD : 1 ≤ D) :
    (∀ c : BlueskyPost, commentNesting (renderComment7 c D) ≤ D)
  ∧ (∀ (post : PostData) (replies : ReplyList),
      commentNesting (renderReplyItem7 D (.mk post replies) (D - 1)) = 1
    ∧ (replies ≠ .nil →
        (renderReplyItem7 D (.mk post replies) (D - 1)).tailOf
            = some (.continueThread (getBlueskyPostUrl post.uri post.author.handle))
        ∧ contLinks (renderReplyItem7 D (.mk post replies) (D - 1)) = 1)
    ∧ (replies = .nil → jsGtZero post.replyCount = true →
        (renderReplyItem7 D (.mk post replies) (D - 1)).tailOf
            = some (.viewMore (getBlueskyPostUrl post.uri post.author.handle)
                (jsOrZero post.replyCount))
        ∧ contLinks (renderReplyItem7 D (.mk post replies) (D - 1)) = 1)
    ∧ (replies = .nil → jsGtZero post.replyCount = false →
        contLinks (renderReplyItem7 D (.mk post replies) (D - 1)) = 0)) := by
  constructor
  · intro c
    cases c with
    | mk post replies =>
      cases replies with
      | nil =>
        by_cases hc : jsGtZero post.replyCount
        · simp only [renderComment7, hc, if_true, commentNesting]
          omega
        · simp only [renderComment7, hc, if_false, commentNesting]
          omega
      | cons r2 rest2 =>
        have h1 := commentNesting_renderReplies7_le D (.cons r2 rest2) 1
          (getBlueskyPostUrl post.uri post.author.handle)
        simp only [renderComment7, commentNesting]
        omega
  · intro post replies
    have hD1 : D - 1 + 1 = D := by omega
    cases replies with
    | nil =>
      by_cases hc : jsGtZero post.replyCount
      · refine ⟨?_, ?_, ?_, ?_⟩
        · simp [renderReplyItem7, hc, commentNesting]
        · intro hne; exact absurd rfl hne
        · intro _ _
          constructor
          · simp [renderReplyItem7, hc, Rendered.tailOf]
          · simp [renderReplyItem7, hc, contLinks]
        · intro _ hfalse; rw [hc] at hfalse; exact absurd hfalse (by simp)
      · rw [Bool.not_eq_true] at hc
        refine ⟨?_, ?_, ?_, ?_⟩
        · simp [renderReplyItem7, hc, commentNesting]
        · intro hne; exact absurd rfl hne
        · intro _ htrue; rw [hc] at htrue; exact absurd htrue (by simp)
        · intro _ _
          simp [renderReplyItem7, hc, contLinks]
    | cons r2 rest2 =>
      have hsplit : renderReplies7 D (.cons r2 rest2) (D - 1 + 1)
          (getBlueskyPostUrl post.uri post.author.handle)
          = .continueThread (getBlueskyPostUrl post.uri post.author.handle) := by
        rw [hD1]
        simp [renderReplies7]
      refine ⟨?_, ?_, ?_, ?_⟩
      · simp only [renderReplyItem7, hsplit, commentNesting]
      · intro _
        constructor
        · simp only [renderReplyItem7, hsplit, Rendered.tailOf]
        · simp only [renderReplyItem7, hsplit, contLinks]
      · intro hnil; exact absurd hnil (by intro h; exact ReplyList.noConfusion h)
      · intro hnil; exact absurd hnil (by intro h; exact ReplyList.noConfusion h)

/-- Witness for claim C1 at the reference depth limit 3 and a concrete
post. -/
theorem renderComment7_depth_bound_witness :
    1 ≤ 3 ∧ commentNesting (renderComment7 exPost 3) ≤ 3 :=
  ⟨by decide, (renderComment7_depth_bound_and_boundary_links 3 (by decide)).1 exPost⟩

/-- Claim C2 counterexample: with a page holding a container missing
its loading indicator followed by a fully complete container, the
complete container is never initialized — the constructor's throw
escapes `forEach` and aborts the whole scan, so the failure is not
scoped to the broken view. -/
theorem initCommentSections_not_isolated :
    sectionOk exGoodContainer = true
  ∧ initCommentSections [exBadContainer, exGoodContainer]
      = ([], some "Required DOM elements not found") :=
  ⟨rfl, rfl⟩

/-- Claim C2 as amended: a missing required descendant makes that
container's construction throw, which aborts initialization of every
container after it in document order; the containers before it were
already constructed and are exactly the initialized views. -/
theorem initCommentSections_upToFirstFailure (good : List Container) (bad : Container)
    (rest : List Container)
    (hg : ∀ c ∈ good, sectionOk c = true) (hb : sectionOk bad = false) :
    (initCommentSections (good ++ bad :: rest)).1 = good.filterMap sectionView
  ∧ (initCommentSections (good ++ bad :: rest)).2.isSome = true := by
  induction good with
  | nil =>
    simp only [List.nil_append, List.filterMap_nil]
    cases hcb : constructSection bad with
    | ok v => rw [sectionOk, hcb] at hb; exact absurd hb (by simp)
    | error e => simp [initCommentSections, hcb]
  | cons c cs ih =>
    have hc : sectionOk c = true := hg c (List.mem_cons_self c cs)
    have ihr := ih (fun x hx => hg x (List.mem_cons_of_mem c hx))
    cases hcc : constructSection c with
    | error e => rw [sectionOk, hcc] at hc; exact absurd hc (by simp)
    | ok v =>
      constructor
      · simp only [List.cons_append, initCommentSections, hcc, List.filterMap_cons,
          sectionView, List.append_eq, ihr.1]
      · simp only [List.cons_append, initCommentSections, hcc, List.append_eq, ihr.2]

/-- Witness for the amended claim C2 at one complete container followed
by one broken container. -/
theorem initCommentSections_upToFirstFailure_witness :
    ((∀ c ∈ [exGoodContainer], sectionOk c = true) ∧ sectionOk exBadContainer = false)
  ∧ (initCommentSections ([exGoodContainer] ++ exBadContainer :: [])).1
      = [exGoodContainer].filterMap sectionView := by
  have h1 : ∀ c ∈ [exGoodContainer], sectionOk c = true := by
    intro c hc
    rw [List.mem_singleton] at hc
    subst hc
    rfl
  have h2 : sectionOk exBadContainer = false := rfl
  exact ⟨⟨h1, h2⟩,
    (initCommentSections_upToFirstFailure [exGoodContainer] exBadContainer [] h1 h2).1⟩

/-- Claim C3 counterexample: a failing cycle (HTTP 500) on a view that
already shows rendered content leaves that content in the list slot
unchanged (merely hidden) instead of clearing it, even though the rest
of the claimed failure behavior (error message carrying the status)
does occur. -/
theorem fetchComments_failure_preserves_content :
    (fetchComments exViewState (.httpError 500)).listContent
        = some (renderComments7 exReplyList)
  ∧ (fetchComments exViewState (.httpError 500)).listContent ≠ none
  ∧ (fetchComments exViewState (.httpError 500)).errorText
        = "Error loading comments: HTTP error! status: 500" :=
  ⟨rfl, fun h => Option.noConfusion h, rfl⟩

/-- Claim C3 as amended: on every failing cycle — a non-2xx status, a
transport error, or an unparsable body — the loading indicator is
hidden, the error slot becomes visible and carries the underlying
cause text (the HTTP status or the thrown error's message), and the
previously rendered content is hidden for the whole cycle (list
display set to `none` and not restored) but its markup is preserved,
not cleared; a subsequent successful cycle hides the error again,
renders the new content into the list and shows it. -/
theorem fetchComments_failure_cycle (s : ViewState) (f : FetchOutcome) (msg : String)
    (cs : ReplyList) (hf : failureMessage f = some msg) :
      (fetchComments s f).loaderDisplay = "none"
    ∧ (fetchComments s f).errorDisplay = "block"
    ∧ (fetchComments s f).listDisplay = "none"
    ∧ (fetchComments s f).errorText = "Error loading comments: " ++ msg
    ∧ (fetchComments s f).listContent = s.listContent
    ∧ (fetchComments (fetchComments s f) (.ok (some cs))).errorDisplay = "none"
    ∧ (fetchComments (fetchComments s f) (.ok (some cs))).listDisplay = "block"
    ∧ (fetchComments (fetchComments s f) (.ok (some cs))).loaderDisplay = "none"
    ∧ (fetchComments (fetchComments s f) (.ok (some cs))).listContent
        = some (renderComments7 cs) := by
  cases f with
  | ok _ => exact absurd hf (by simp [failureMessage])
  | httpError status =>
    simp only [failureMessage, Option.some.injEq] at hf
    subst hf
    refine ⟨rfl, rfl, rfl, rfl, rfl, rfl, rfl, rfl, ?_⟩
    simp [fetchComments, jsOrNil]
  | thrown m =>
    simp only [failureMessage, Option.some.injEq] at hf
    subst hf
    refine ⟨rfl, rfl, rfl, rfl, rfl, rfl, rfl, rfl, ?_⟩
    simp [fetchComments, jsOrNil]

/-- Witness for the amended claim C3, exercising both failure kinds:
the non-2xx status 500 and a thrown network error. -/
theorem fetchComments_failure_cycle_witness :
    (failureMessage (.httpError 500) = some "HTTP error! status: 500"
      ∧ (fetchComments exViewState (.httpError 500)).errorText
          = "Error loading comments: " ++ "HTTP error! status: 500")
  ∧ (failureMessage (.thrown "NetworkError when attempting to fetch resource.")
        = some "NetworkError when attempting to fetch resource."
      ∧ (fetchComments exViewState
            (.thrown "NetworkError when attempting to fetch resource.")).listContent
          = exViewState.listContent) :=
  ⟨⟨by decide,
    (fetchComments_failure_cycle exViewState (.httpError 500) "HTTP error! status: 500"
      exReplyList (by decide)).2.2.2.1⟩,
   ⟨rfl,
    (fetchComments_failure_cycle exViewState
      (.thrown "NetworkError when attempting to fetch resource.")
      "NetworkError when attempting to fetch resource." exReplyList rfl).2.2.2.2.1⟩⟩

/-- Every fetched post tree has height at least one. -/
theorem one_le_height (r : BlueskyPost) : 1 ≤ height r := by
  cases r with
  | mk post replies => simp [height]

mutual
/-- Content agreement of the two renderers on one reply, used by the
amended claim C4. -/
theorem content7_item_eq (D : Nat) (r : BlueskyPost) (d : Nat)
    (h : height r + d ≤ D) :
    content7 (renderReplyItem7 D r d) = content8 (renderItem8 r) := by
  cases r with
  | mk post replies =>
    cases replies with
    | nil =>
      by_cases hc : jsGtZero post.replyCount
      · simp [renderReplyItem7, renderItem8, renderReplies8, hc, content7, content8]
      · simp [renderReplyItem7, renderItem8, renderReplies8, hc, content7, content8]
    | cons r2 rest2 =>
      have hh : heightList (.cons r2 rest2) + (d + 1) ≤ D := by
        have := h
        simp only [height] at this
        omega
      have ht := content7_replies_eq D (.cons r2 rest2) (d + 1)
        (getBlueskyPostUrl post.uri post.author.handle) hh
      simp only [renderReplyItem7, renderItem8, content7, content8, ht]

/-- Content agreement of the two renderers on a reply array, used by
the amended claim C4. -/
theorem content7_replies_eq (D : Nat) (rs : ReplyList) (d : Nat) (url : String)
    (h : heightList rs + d ≤ D) :
    content7 (renderReplies7 D rs d url) = content8 (renderReplies8 rs) := by
  cases rs with
  | nil => simp [renderReplies7, renderReplies8, content7, content8]
  | cons r rest =>
    have hr := one_le_height r
    have hd : ¬ D ≤ d := by
      simp only [heightList] at h
      omega
    have h1 : height r + d ≤ D := by
      simp only [heightList] at h
      omega
    have h2 : heightList rest + d ≤ D := by
      simp only [heightList] at h
      omega
    have hi := content7_item_eq D r d h1
    have hl := content7_list_eq D rest d h2
    simp only [renderReplies7, renderReplies8, if_neg hd, content7, content8,
      content7List, content8List, hi, hl]

/-- List form of the content agreement, used by the amended claim
C4. -/
theorem content7_list_eq (D : Nat) (rs : ReplyList) (d : Nat)
    (h : heightList rs + d ≤ D) :
    content7List (renderReplyList7 D rs d) = content8List (renderList8 rs) := by
  cases rs with
  | nil => simp [renderReplyList7, renderList8, content7List, content8List]
  | cons r rest =>
    have h1 : height r + d ≤ D := by
      simp only [heightList] at h
      omega
    have h2 : heightList rest + d ≤ D := by
      simp only [heightList] at h
      omega
    simp only [renderReplyList7, renderList8, content7List, content8List,
      content7_item_eq D r d h1, content7_list_eq D rest d h2]
end

/-- Content agreement of the two top-level `renderComment` functions,
used by the amended claim C4. -/
theorem content7_comment_eq (D : Nat) (c : BlueskyPost) (h : height c ≤ D) :
    content7 (renderComment7 c D) = content8 (renderComment8 c) := by
  cases c with
  | mk post replies =>
    cases replies with
    | nil =>
      by_cases hc : jsGtZero post.replyCount
      · simp [renderComment7, renderComment8, renderReplies8, hc, content7, content8]
      · simp [renderComment7, renderComment8, renderReplies8, hc, content7, content8]
    | cons r2 rest2 =>
      have hh : heightList (.cons r2 rest2) + 1 ≤ D := by
        simp only [height] at h
        omega
      have ht := content7_replies_eq D (.cons r2 rest2) 1
        (getBlueskyPostUrl post.uri post.author.handle) hh
      simp only [renderComment7, renderComment8, content7, content8, ht]

/-- Top-list form of the content agreement, used by the amended claim
C4. -/
theorem content7_topList_eq : ∀ cs : ReplyList, heightList cs ≤ 3 →
    content7List (renderTopList7 cs) = content8List (renderTopList8 cs)
  | .nil, _ => rfl
  | .cons c rest, h => by
    have h1 : height c ≤ 3 := by
      simp only [heightList] at h
      omega
    have h2 : heightList rest ≤ 3 := by
      simp only [heightList] at h
      omega
    simp only [renderTopList7, renderTopList8, content7List, content8List,
      content7_comment_eq 3 c h1, content7_topList_eq rest h2]

/-- Claim C4 counterexample: already on a single leaf comment the two
files render different markup (the first emits a `comment-link` anchor
wrapping header and body and one anchor per engagement counter; the
second emits no anchors at all), so the two renderers do not produce
the same rendered output. -/
theorem renderers_not_equal :
    toHtml7 exLocaleDate (renderComment7 exPost 3)
      ≠ toHtml8 exLocaleDate (renderComment8 exPost) := by decide

/-- Claim C4 as amended: the two files' renderers are near-identical
but not output-identical; what they agree on is the displayed content —
for every reply tree whose height is within the first file's depth
limit 3, both render exactly the same posts (author identity, body
text, timestamp and the three counts) in the same order, and they
differ in markup (hyperlinks and continuation links). -/
theorem renderers_content_agree (cs : ReplyList) (h : heightList cs ≤ 3) :
    outContent7 (renderComments7 cs) = outContent8 (renderComments8 cs) := by
  cases cs with
  | nil => rfl
  | cons c rest =>
    simp only [renderComments7, renderComments8, outContent7, outContent8]
    exact content7_topList_eq (.cons c rest) h

/-- Witness for the amended claim C4 at a concrete one-post tree. -/
theorem renderers_content_agree_witness :
    heightList exReplyList ≤ 3
  ∧ outContent7 (renderComments7 exReplyList) = outContent8 (renderComments8 exReplyList) :=
  ⟨by decide, renderers_content_agree exReplyList (by decide)⟩

/-- Claim C5: the identifier translator returns
`https://bsky.app/profile/<handle>/post/<recordKey>` where the record
key is the trailing path segment of the uri; on the reference input it
returns the reference output; it is deterministic (a pure total
function: two calls on identical inputs are the same value) and total
on all string inputs (never raises), always producing a url of the
composed shape. -/
theorem getBlueskyPostUrl_spec :
    getBlueskyPostUrl "at://did:plc:abc123/app.bsky.feed.post/xyz789" "alice.bsky.social"
      = "https://bsky.app/profile/alice.bsky.social/post/xyz789"
  ∧ (∀ uri handle : String, getBlueskyPostUrl uri handle = getBlueskyPostUrl uri handle)
  ∧ (∀ uri handle : String,
      getBlueskyPostUrl uri handle
        = "https://bsky.app/profile/" ++ handle ++ "/post/"
            ++ (jsSplit uri '/').getLastD "") :=
  ⟨by decide, fun _ _ => rfl, fun _ _ => rfl⟩

/-- Claim C6: an empty (or absent) top-level replies array renders
exactly the `no comments yet` placeholder: both files' `renderComments`
return the placeholder on the empty array, the placeholder's markup is
the explicit `no-comments` paragraph, and a successful fetch cycle
whose body has `thread.replies` absent or empty stores exactly that
placeholder in the list slot, with the error slot hidden and the list
shown (not an error, not blank). -/
theorem renderComments_empty_placeholder :
    renderComments7 .nil = .noComments
  ∧ renderComments8 .nil = .noComments
  ∧ (∀ localeDate, outputHtml7 localeDate RenderOutput.noComments = noCommentsHtml)
  ∧ (∀ s : ViewState,
        (fetchComments s (.ok none)).listContent = some RenderOutput.noComments
      ∧ (fetchComments s (.ok none)).errorDisplay = "none"
      ∧ (fetchComments s (.ok none)).listDisplay = "block"
      ∧ (fetchComments s (.ok (some .nil))).listContent = some RenderOutput.noComments) :=
  ⟨rfl, rfl, fun _ => rfl, fun _ => ⟨rfl, rfl, rfl, rfl⟩⟩

/-- A present non-negative (or absent) count stays non-negative under
the `x || 0` defaulting. -/
theorem jsOrZero_nonneg (c : Option Int) (hc : nonnegCount c = true) : 0 ≤ jsOrZero c := by
  cases c with
  | none => simp [jsOrZero]
  | some n =>
    simp only [nonnegCount, decide_eq_true_eq] at hc
    simpa [jsOrZero] using hc

/-- Claim C7: every rendered post (as a reply and as a top-level
comment) carries all three engagement counters — reply, repost, like —
displayed as `count || 0`; a counts subfield absent from the payload is
displayed as 0, and under the payload invariant that present counts are
non-negative every displayed counter is non-negative. -/
theorem rendered_counts_nonneg (D d : Nat) (post : PostData) (replies : ReplyList)
    (h : countsNonneg post = true) :
    (renderReplyItem7 D (.mk post replies) d).countsOf
        = some (jsOrZero post.replyCount, jsOrZero post.repostCount, jsOrZero post.likeCount)
  ∧ (renderComment7 (.mk post replies) D).countsOf
        = some (jsOrZero post.replyCount, jsOrZero post.repostCount, jsOrZero post.likeCount)
  ∧ 0 ≤ jsOrZero post.replyCount
  ∧ 0 ≤ jsOrZero post.repostCount
  ∧ 0 ≤ jsOrZero post.likeCount
  ∧ (post.replyCount = none → jsOrZero post.replyCount = 0)
  ∧ (post.repostCount = none → jsOrZero post.repostCount = 0)
  ∧ (post.likeCount = none → jsOrZero post.likeCount = 0) := by
  simp only [countsNonneg, Bool.and_eq_true] at h
  refine ⟨rfl, rfl, jsOrZero_nonneg _ h.1.1, jsOrZero_nonneg _ h.1.2,
    jsOrZero_nonneg _ h.2, ?_, ?_, ?_⟩ <;> intro hnone <;> simp [hnone, jsOrZero]

/-- Witness for claim C7 at a concrete post whose `repostCount` is
absent from the payload. -/
theorem rendered_counts_nonneg_witness :
    countsNonneg exPostData = true
  ∧ (renderReplyItem7 3 (.mk exPostData .nil) 0).countsOf
      = some (jsOrZero exPostData.replyCount, jsOrZero exPostData.repostCount,
          jsOrZero exPostData.likeCount) :=
  ⟨by decide, (rendered_counts_nonneg 3 0 exPostData .nil (by decide)).1⟩

/-- Claim C8: `initialize` registers the manual-refresh listener, runs
one fetch-and-render cycle immediately on construction, and registers a
recurring timer with the fixed interval of 5 minutes (300000 ms); with
no manual triggers the cycle start times up to t = 5 min are exactly
t = 0 (mount) and t = 5 min. -/
theorem initSetup_schedule :
    initSetup.immediateCycleRun = true
  ∧ initSetup.refreshClickRegistered = true
  ∧ initSetup.intervalMs = 5 * 60 * 1000
  ∧ cycleTimesUpTo initSetup.intervalMs (5 * 60 * 1000) = [0, 5 * 60 * 1000]
  ∧ (cycleTimesUpTo initSetup.intervalMs (5 * 60 * 1000)).length = 2 :=
  ⟨rfl, rfl, rfl, by decide, by decide⟩

/-- Sibling order preservation of the reply mapping, used by claim
C9. -/
theorem itemsTexts_renderReplyList7 (D : Nat) :
    ∀ (rs : ReplyList) (d : Nat),
      itemsTexts (renderReplyList7 D rs d) = rs.texts.map some
  | .nil, _ => rfl
  | .cons r rest, d => by
    cases r with
    | mk post replies =>
      simp only [renderReplyList7, itemsTexts, ReplyList.texts, List.map_cons,
        renderReplyItem7, Rendered.textOf, BlueskyPost.post,
        itemsTexts_renderReplyList7 D rest d]

/-- Sibling order preservation of the top-level mapping, used by claim
C9. -/
theorem itemsTexts_renderTopList7 :
    ∀ cs : ReplyList, itemsTexts (renderTopList7 cs) = cs.texts.map some
  | .nil => rfl
  | .cons c rest => by
    cases c with
    | mk post replies =>
      simp only [renderTopList7, itemsTexts, ReplyList.texts, List.map_cons,
        renderComment7, Rendered.textOf, BlueskyPost.post,
        itemsTexts_renderTopList7 rest]

/-- Claim C9: siblings are rendered in exactly the order the API
delivered them, at the top level and at every nested level below the
depth boundary — the rendered items are the input array mapped in
order, with no re-sorting by recency or engagement. -/
theorem siblings_rendered_in_order (cs : ReplyList) (hcs : cs ≠ .nil)
    (D d : Nat) (rs : ReplyList) (url : String) (hd : d < D) (hrs : rs ≠ .nil) :
    itemsTexts (renderComments7 cs).topItems = cs.texts.map some
  ∧ itemsTexts (renderReplies7 D rs d url).blockItemsOf = rs.texts.map some := by
  constructor
  · cases cs with
    | nil => exact absurd rfl hcs
    | cons c rest =>
      simp only [renderComments7, RenderOutput.topItems]
      exact itemsTexts_renderTopList7 (.cons c rest)
  · cases rs with
    | nil => exact absurd rfl hrs
    | cons r rest =>
      have hnd : ¬ D ≤ d := by omega
      simp only [renderReplies7, if_neg hnd, Rendered.blockItemsOf]
      exact itemsTexts_renderReplyList7 D (.cons r rest) d

/-- Witness for claim C9 at a concrete one-post array. -/
theorem siblings_rendered_in_order_witness :
    (exReplyList ≠ .nil ∧ (1 : Nat) < 3)
  ∧ itemsTexts (renderComments7 exReplyList).topItems = exReplyList.texts.map some :=
  ⟨⟨fun h => ReplyList.noConfusion h, by decide⟩,
    (siblings_rendered_in_order exReplyList (fun h => ReplyList.noConfusion h) 3 1
      exReplyList "u" (by decide) (fun h => ReplyList.noConfusion h)).1⟩

/-- Claim C10: at every render depth (not only at the boundary), a
rendered node whose fetched children array is empty but whose
server-reported `replyCount` is positive gets exactly one
`View N more replies` remote-continuation link as its trailing markup,
pointing at that node's own web url and showing the reported count;
this holds both for replies and for top-level comments. -/
theorem leaf_with_count_gets_viewmore (D d : Nat) (post : PostData)
    (h : jsGtZero post.replyCount = true) :
    (renderReplyItem7 D (.mk post .nil) d).tailOf
        = some (.viewMore (getBlueskyPostUrl post.uri post.author.handle)
            (jsOrZero post.replyCount))
  ∧ contLinks (renderReplyItem7 D (.mk post .nil) d) = 1
  ∧ (renderComment7 (.mk post .nil) D).tailOf
        = some (.viewMore (getBlueskyPostUrl post.uri post.author.handle)
            (jsOrZero post.replyCount))
  ∧ contLinks (renderComment7 (.mk post .nil) D) = 1 := by
  refine ⟨?_, ?_, ?_, ?_⟩ <;>
    simp [renderReplyItem7, renderComment7, h, Rendered.tailOf, contLinks]

/-- Witness for claim C10 at a concrete leaf with `replyCount = 4` and
render depth 1, strictly below the limit 3. -/
theorem leaf_with_count_gets_viewmore_witness :
    jsGtZero exPostDataMore.replyCount = true
  ∧ (renderReplyItem7 3 (.mk exPostDataMore .nil) 1).tailOf
      = some (.viewMore (getBlueskyPostUrl exPostDataMore.uri exPostDataMore.author.handle)
          (jsOrZero exPostDataMore.replyCount)) :=
  ⟨by decide, (leaf_with_count_gets_viewmore 3 1 exPostDataMore (by decide)).1⟩
